import Mathlib

/-! Verification of the postgres S3 extension library (`src/lib.rs`).

This file gives a shallow embedding of the library: the endpoint
normalizer, the credential resolver (environment fallback), the keyed
client cache, and the four operation handlers with their outcome
classification.  Network responses are modelled as explicit inputs to the
handlers; a fatal `pgrx` error report is modelled as `Except.error`. -/

/-- Boolean string prefix test, mirroring Rust `str::starts_with`. -/
def strStartsWith (s p : String) : Bool := decide (p.data <+: s.data)

/-- Boolean substring test, mirroring Rust `str::contains`. -/
def strContains (s sub : String) : Bool := decide (sub.data <:+: s.data)

/-- Embeds `normalize_endpoint` (lib.rs lines 269-275): return the string
unchanged when it starts with an http or https scheme, otherwise prepend
the https scheme. -/
def normalize_endpoint (ep : String) : String :=
  if strStartsWith ep "http://" || strStartsWith ep "https://" then ep
  else "https://" ++ ep

/-- Process environment, restricted to the four variables the resolver
reads (lib.rs lines 206-229). -/
structure Env where
  s3_endpoint_url : Option String
  aws_access_key_id : Option String
  aws_secret_access_key : Option String
  aws_session_token : Option String

/-- The five effective configuration values computed inside
`get_or_init_client` (lib.rs lines 206-230): `ep`, `ak`, `sk`, `st`, `rg`. -/
structure ResolvedConfig where
  ep : String
  ak : String
  sk : String
  st : Option String
  rg : String
deriving DecidableEq

/-- Embeds the resolution part of `get_or_init_client` (lib.rs lines
206-230).  Note that in the source each required environment variable is
read with `unwrap_or(&std::env::var(..).map_err(|_| pgrx::error!(..)).unwrap())`;
Rust evaluates the `unwrap_or` argument eagerly, so a missing required
variable aborts the call even before the override is consulted, and the
message raised for a missing `S3_ENDPOINT_URL` is the literal
`"AWS_SECRET_ACCESS_KEY not set"` that the source code uses there. -/
def resolveConfig (env : Env)
    (endpoint_url access_key secret_key session_token region : Option String) :
    Except String ResolvedConfig :=
  match env.s3_endpoint_url with
  | none => .error "AWS_SECRET_ACCESS_KEY not set"
  | some envEp =>
    let ep := normalize_endpoint (endpoint_url.getD envEp)
    match env.aws_access_key_id with
    | none => .error "AWS_ACCESS_KEY_ID not set"
    | some envAk =>
      let ak := access_key.getD envAk
      match env.aws_secret_access_key with
      | none => .error "AWS_SECRET_ACCESS_KEY not set"
      | some envSk =>
        let sk := secret_key.getD envSk
        let st := session_token.orElse (fun _ => env.aws_session_token)
        let rg := region.getD "us-east-1"
        .ok ⟨ep, ak, sk, st, rg⟩

/-- Embeds `ClientKey` (lib.rs lines 176-182): structural equality over
exactly endpoint, access key, secret key and region; the session token is
not part of the key. -/
structure ClientKey where
  endpoint_url : String
  access_key : String
  secret_key : String
  region : String
deriving DecidableEq

/-- Embeds `ClientKey::new` (lib.rs lines 184-193). -/
def ClientKey.new (endpoint_url access_key secret_key region : String) : ClientKey :=
  ⟨endpoint_url, access_key, secret_key, region⟩

/-- A constructed S3 client, identified by the index of the builder
invocation that produced it. -/
abbrev Client := Nat

/-- State of the process-wide client cache `S3_CLIENTS` together with a
count of how many times the client builder has run. -/
structure CacheState where
  entries : List (ClientKey × Client)
  builds : Nat
deriving DecidableEq

/-- Lookup in the cache mapping (models `HashMap::entry` occupancy). -/
def lookupKey : List (ClientKey × Client) → ClientKey → Option Client
  | [], _ => none
  | (k, c) :: rest, k' => if k' = k then some c else lookupKey rest k'

/-- The empty cache at backend start. -/
def initCache : CacheState := ⟨[], 0⟩

/-- Embeds `get_or_init_client` (lib.rs lines 195-267): resolve the
configuration, form the key, then `entry(key).or_insert(build())`.
`or_insert` receives its argument by value, so the builder expression
`rt().block_on(async { .. })` is evaluated on every call, also when the
key is already present; the freshly built client is then discarded and
the cached one returned.  The `builds` counter records each builder run,
and a newly built client is identified by the counter value at that run. -/
def get_or_init_client (env : Env) (clients : CacheState)
    (endpoint_url access_key secret_key session_token region : Option String) :
    Except String (Client × CacheState) :=
  match resolveConfig env endpoint_url access_key secret_key session_token region with
  | .error e => .error e
  | .ok cfg =>
    match lookupKey clients.entries (ClientKey.new cfg.ep cfg.ak cfg.sk cfg.rg) with
    | some c => .ok (c, ⟨clients.entries, clients.builds + 1⟩)
    | none =>
      .ok (clients.builds,
        ⟨(ClientKey.new cfg.ep cfg.ak cfg.sk cfg.rg, clients.builds) :: clients.entries,
          clients.builds + 1⟩)

/-- The cache key a call resolves to (lib.rs line 232). -/
def resolvedKey (env : Env)
    (endpoint_url access_key secret_key session_token region : Option String) :
    Except String ClientKey :=
  (resolveConfig env endpoint_url access_key secret_key session_token region).map
    (fun cfg => ClientKey.new cfg.ep cfg.ak cfg.sk cfg.rg)

/-- Head-object backend outcome: success, or an error carrying the
optional error code (`err.code()`) and display text (`err.to_string()`). -/
inductive HeadResult where
  | ok : HeadResult
  | err (code : Option String) (msg : String) : HeadResult

/-- The not-found test of `s3_object_exists_lazy` (lib.rs lines 43-47). -/
def notFoundSignal (code msg : String) : Bool :=
  (code == "NotFound" || code == "NoSuchKey" || code == "404")
    || strContains msg "NotFound" || strContains msg "NoSuchKey" || strContains msg "404"

/-- Embeds `s3_object_exists_lazy` (lib.rs lines 20-65), with the backend
response to the head request supplied as input. -/
def s3_object_exists_lazy (env : Env) (clients : CacheState)
    (bucket object_key : String)
    (endpoint_url access_key secret_key session_token region : Option String)
    (resp : HeadResult) : Except String Bool :=
  match get_or_init_client env clients endpoint_url access_key secret_key session_token region with
  | .error e => .error e
  | .ok _ =>
    match resp with
    | .ok => .ok true
    | .err c msg =>
      if notFoundSignal (c.getD "") msg then .ok false
      else if c.getD "" == "AccessDenied" then
        .error ("AccessDenied for s3://" ++ bucket ++ "/" ++ object_key
          ++ " (check credentials/policy)")
      else .error ("S3 HeadObject error: " ++ msg)

/-- Create-bucket backend outcome: success, a transport-level dispatch
failure, or any other SDK error. -/
inductive CreateBucketOutcome where
  | ok : CreateBucketOutcome
  | dispatchFailure (e : String) : CreateBucketOutcome
  | otherError (e : String) : CreateBucketOutcome

/-- Embeds `s3_create_bucket` (lib.rs lines 67-92). -/
def s3_create_bucket (env : Env) (clients : CacheState) (bucket : String)
    (endpoint_url access_key secret_key session_token region : Option String)
    (resp : CreateBucketOutcome) : Except String Bool :=
  match get_or_init_client env clients endpoint_url access_key secret_key session_token region with
  | .error e => .error e
  | .ok _ =>
    match resp with
    | .ok => .ok true
    | .dispatchFailure e => .error ("Dispatch failure: " ++ e)
    | .otherError e => .error ("CreateBucket failed: " ++ e)

/-- The put request assembled by `s3_put_object` (lib.rs lines 109-118). -/
structure PutRequest where
  bucket : String
  key : String
  body : List Nat
  content_type : Option String
deriving DecidableEq

/-- Embeds the request construction of `s3_put_object` (lib.rs lines
109-118): bucket, key and body are always set, the content type only when
the optional argument is given. -/
def put_object_request (bucket object_key : String) (data : List Nat)
    (content_type : Option String) : PutRequest :=
  let req : PutRequest :=
    { bucket := bucket, key := object_key, body := data, content_type := none }
  match content_type with
  | some ct => { req with content_type := some ct }
  | none => req

/-- The double quote character, the pattern of `trim_matches` in the
source. -/
def quoteChar : Char := Char.ofNat 34

/-- Embeds Rust `str::trim_matches`: repeatedly remove the character from
both ends of the string. -/
def trim_matches (c : Char) (s : String) : String :=
  String.mk (((s.data.dropWhile (fun a => a == c)).reverse.dropWhile (fun a => a == c)).reverse)

/-- Put-object backend outcome: success carrying the optional ETag of the
response, a dispatch failure, or any other SDK error. -/
inductive PutOutcome where
  | ok (e_tag : Option String) : PutOutcome
  | dispatchFailure (e : String) : PutOutcome
  | otherError (e : String) : PutOutcome

/-- Embeds `s3_put_object` (lib.rs lines 94-140): on success the ETag is
taken from the response (empty when absent) and stripped of surrounding
double quotes. -/
def s3_put_object (env : Env) (clients : CacheState) (bucket object_key : String)
    (data : List Nat)
    (endpoint_url access_key secret_key session_token region content_type : Option String)
    (resp : PutOutcome) : Except String String :=
  match get_or_init_client env clients endpoint_url access_key secret_key session_token region with
  | .error e => .error e
  | .ok _ =>
    match resp with
    | .ok e_tag => .ok (trim_matches quoteChar (e_tag.getD ""))
    | .dispatchFailure e => .error ("Dispatch failure: " ++ e)
    | .otherError e => .error ("PutObject failed: " ++ e)

/-- A response body stream: either its list of chunks, or a streaming
failure discovered while reading. -/
inductive ByteStream where
  | chunks (cs : List (List Nat)) : ByteStream
  | failure (e : String) : ByteStream

/-- Models the SDK `ByteStream::collect`: concatenate every chunk of the
stream into one contiguous byte sequence, or report the stream error. -/
def collectStream : ByteStream → Except String (List Nat)
  | .chunks cs => .ok cs.flatten
  | .failure e => .error e

/-- Get-object backend outcome: a successful response carrying its body
stream, a dispatch failure, or any other SDK error. -/
inductive GetOutcome where
  | ok (body : ByteStream) : GetOutcome
  | dispatchFailure (e : String) : GetOutcome
  | otherError (e : String) : GetOutcome

/-- Embeds `s3_get_object` (lib.rs lines 142-174).  The message for the
generic error arm is the literal `"PutObject failed: "` the source uses
there. -/
def s3_get_object (env : Env) (clients : CacheState) (bucket object_key : String)
    (endpoint_url access_key secret_key session_token region : Option String)
    (resp : GetOutcome) : Except String (List Nat) :=
  match get_or_init_client env clients endpoint_url access_key secret_key session_token region with
  | .error e => .error e
  | .ok _ =>
    match resp with
    | .ok body =>
      match collectStream body with
      | .ok data => .ok data
      | .error e => .error ("Collect error: " ++ e)
    | .dispatchFailure e => .error ("Dispatch failure: " ++ e)
    | .otherError e => .error ("PutObject failed: " ++ e)

/-- A fully populated environment used for concrete evaluations. -/
def env₀ : Env := ⟨some "ep", some "ak", some "sk", none⟩

/-- The key all-default calls resolve to under `env₀`. -/
def key₀ : ClientKey := ClientKey.new "https://ep" "ak" "sk" "us-east-1"

/-- The cache state after one all-default call under `env₀` from the
empty cache. -/
def cache₁ : CacheState := ⟨[(key₀, 0)], 1⟩

/-- A string starts with any string it was built by appending to. -/
theorem strStartsWith_append (p e : String) : strStartsWith (p ++ e) p = true := by
  unfold strStartsWith
  apply decide_eq_true
  rw [String.data_append]
  exact List.prefix_append _ _

/-- Lists with distinct heads are not prefixes of one another. -/
theorem not_pref_of_head_ne {a b : Char} (l₁ l₂ : List Char) (h : ¬ a = b) :
    ¬ ((a :: l₁) <+: (b :: l₂)) := by
  rintro ⟨t, ht⟩
  rw [List.cons_append] at ht
  exact h (List.head_eq_of_cons_eq ht)

/-- Strings whose first characters differ fail the prefix test. -/
theorem strStartsWith_false_of_head_ne (s p : String) (a b : Char)
    (l₁ l₂ : List Char) (hs : s.data = a :: l₁) (hp : p.data = b :: l₂)
    (h : ¬ b = a) : strStartsWith s p = false := by
  unfold strStartsWith
  apply decide_eq_false
  rw [hs, hp]
  exact not_pref_of_head_ne l₂ l₁ h

/-- A substring test succeeds when the data splits around the sought
string. -/
theorem strContains_of_split (s sub : String) (pre suf : List Char)
    (h : s.data = pre ++ (sub.data ++ suf)) : strContains s sub = true := by
  unfold strContains
  apply decide_eq_true
  exact ⟨pre, suf, by rw [h]; simp [List.append_assoc]⟩

/-- C4: the endpoint normalizer returns the input unchanged when it
already begins with the http or https scheme, and otherwise returns the
input with the https scheme prepended; in particular
`"s3.example.com:9000"` normalizes to `"https://s3.example.com:9000"`. -/
theorem normalize_endpoint_spec (s : String) :
    ((strStartsWith s "http://" = true ∨ strStartsWith s "https://" = true) →
      normalize_endpoint s = s) ∧
    (strStartsWith s "http://" = false → strStartsWith s "https://" = false →
      normalize_endpoint s = "https://" ++ s) ∧
    normalize_endpoint "s3.example.com:9000" = "https://s3.example.com:9000" := by
  refine ⟨?_, ?_, by decide⟩
  · intro h
    unfold normalize_endpoint
    rcases h with h | h <;> simp [h]
  · intro h1 h2
    unfold normalize_endpoint
    simp [h1, h2]

/-- Witness for C4 at the concrete scheme-less endpoint of the spec. -/
theorem normalize_endpoint_spec_w :
    normalize_endpoint "s3.example.com:9000" = "https://" ++ "s3.example.com:9000" :=
  (normalize_endpoint_spec "s3.example.com:9000").2.1 (by decide) (by decide)

/-- C10: the endpoint normalizer is idempotent. -/
theorem normalize_endpoint_idem (s : String) :
    normalize_endpoint (normalize_endpoint s) = normalize_endpoint s := by
  unfold normalize_endpoint
  by_cases h : (strStartsWith s "http://" || strStartsWith s "https://") = true
  · simp [h]
  · have hs : strStartsWith ("https://" ++ s) "https://" = true :=
      strStartsWith_append "https://" s
    simp [h, hs]

/-- Unpack a successful key resolution into the underlying configuration. -/
theorem resolvedKey_ok {env : Env} {e a s t r : Option String} {k : ClientKey}
    (h : resolvedKey env e a s t r = .ok k) :
    ∃ cfg, resolveConfig env e a s t r = .ok cfg ∧
      ClientKey.new cfg.ep cfg.ak cfg.sk cfg.rg = k := by
  unfold resolvedKey at h
  cases hr : resolveConfig env e a s t r with
  | error e' => rw [hr] at h; simp [Except.map] at h
  | ok cfg => rw [hr] at h; simp [Except.map] at h; exact ⟨cfg, rfl, h⟩

/-- Reduction of `get_or_init_client` once the configuration resolves. -/
theorem get_or_init_client_eq_ok {env : Env} {e a s t r : Option String}
    {cfg : ResolvedConfig} (cs : CacheState)
    (hr : resolveConfig env e a s t r = .ok cfg) :
    get_or_init_client env cs e a s t r =
      match lookupKey cs.entries (ClientKey.new cfg.ep cfg.ak cfg.sk cfg.rg) with
      | some c => .ok (c, ⟨cs.entries, cs.builds + 1⟩)
      | none =>
        .ok (cs.builds,
          ⟨(ClientKey.new cfg.ep cfg.ak cfg.sk cfg.rg, cs.builds) :: cs.entries,
            cs.builds + 1⟩) := by
  unfold get_or_init_client
  rw [hr]

/-- On a cache hit the existing client is returned and only the build
counter moves. -/
theorem get_or_init_client_hit {env : Env} {e a s t r : Option String}
    {k : ClientKey} {c : Client} (cs : CacheState)
    (hk : resolvedKey env e a s t r = .ok k)
    (hc : lookupKey cs.entries k = some c) :
    get_or_init_client env cs e a s t r = .ok (c, ⟨cs.entries, cs.builds + 1⟩) := by
  obtain ⟨cfg, hr, hkey⟩ := resolvedKey_ok hk
  rw [get_or_init_client_eq_ok cs hr, hkey, hc]

/-- On a cache miss the freshly built client is inserted and returned. -/
theorem get_or_init_client_miss {env : Env} {e a s t r : Option String}
    {k : ClientKey} (cs : CacheState)
    (hk : resolvedKey env e a s t r = .ok k)
    (hc : lookupKey cs.entries k = none) :
    get_or_init_client env cs e a s t r =
      .ok (cs.builds, ⟨(k, cs.builds) :: cs.entries, cs.builds + 1⟩) := by
  obtain ⟨cfg, hr, hkey⟩ := resolvedKey_ok hk
  rw [get_or_init_client_eq_ok cs hr, hkey, hc]

/-- After any successful call the returned client is cached under the
resolved key. -/
theorem get_or_init_client_lookup {env : Env} {e a s t r : Option String}
    {k : ClientKey} {c : Client} {cs st' : CacheState}
    (hk : resolvedKey env e a s t r = .ok k)
    (h : get_or_init_client env cs e a s t r = .ok (c, st')) :
    lookupKey st'.entries k = some c := by
  obtain ⟨cfg, hr, hkey⟩ := resolvedKey_ok hk
  rw [get_or_init_client_eq_ok cs hr, hkey] at h
  cases hl : lookupKey cs.entries k with
  | some c0 =>
    rw [hl] at h
    simp only [Except.ok.injEq, Prod.mk.injEq] at h
    obtain ⟨h1, h2⟩ := h
    subst h1; subst h2
    exact hl
  | none =>
    rw [hl] at h
    simp only [Except.ok.injEq, Prod.mk.injEq] at h
    obtain ⟨h1, h2⟩ := h
    subst h1; subst h2
    simp [lookupKey]

/-- Shape of a successful resolution: all three required environment
variables are present and each effective value is override-or-environment. -/
theorem resolveConfig_ok_shape {env : Env} {e a s t r : Option String}
    {cfg : ResolvedConfig} (h : resolveConfig env e a s t r = .ok cfg) :
    ∃ envEp envAk envSk,
      env.s3_endpoint_url = some envEp ∧
      env.aws_access_key_id = some envAk ∧
      env.aws_secret_access_key = some envSk ∧
      cfg = ⟨normalize_endpoint (e.getD envEp), a.getD envAk, s.getD envSk,
        t.orElse (fun _ => env.aws_session_token), r.getD "us-east-1"⟩ := by
  obtain ⟨oe, oa, os, ot⟩ := env
  cases oe with
  | none => simp [resolveConfig] at h
  | some envEp =>
    cases oa with
    | none => simp [resolveConfig] at h
    | some envAk =>
      cases os with
      | none => simp [resolveConfig] at h
      | some envSk =>
        simp only [resolveConfig, Except.ok.injEq] at h
        exact ⟨envEp, envAk, envSk, rfl, rfl, rfl, h.symm⟩

/-- The effective region of a call with a region override is that
override. -/
theorem resolveConfig_rg {env : Env} {e a s t : Option String} {r : String}
    {cfg : ResolvedConfig} (h : resolveConfig env e a s t (some r) = .ok cfg) :
    cfg.rg = r := by
  obtain ⟨envEp, envAk, envSk, _, _, _, hcfg⟩ := resolveConfig_ok_shape h
  subst hcfg
  rfl

/-- C2: two calls that resolve to the same configuration key observe the
same cached client instance; the key is structural over exactly endpoint,
access key, secret key and region, so two calls differing only in session
token resolve to the same key, while two calls differing in region resolve
to different keys and end up as two distinct cache entries holding
distinct clients. -/
theorem client_cache_key_spec :
    (∀ (env : Env) (cs₀ : CacheState) (e₁ a₁ s₁ t₁ r₁ e₂ a₂ s₂ t₂ r₂ : Option String)
        (k : ClientKey) (c₁ c₂ : Client) (st₁ st₂ : CacheState),
      resolvedKey env e₁ a₁ s₁ t₁ r₁ = .ok k →
      resolvedKey env e₂ a₂ s₂ t₂ r₂ = .ok k →
      get_or_init_client env cs₀ e₁ a₁ s₁ t₁ r₁ = .ok (c₁, st₁) →
      get_or_init_client env st₁ e₂ a₂ s₂ t₂ r₂ = .ok (c₂, st₂) →
      c₂ = c₁) ∧
    (∀ (env : Env) (e a s t t' r : Option String),
      resolvedKey env e a s t r = resolvedKey env e a s t' r) ∧
    (∀ (env : Env) (e a s t : Option String) (r r' : String) (k k' : ClientKey),
      r ≠ r' →
      resolvedKey env e a s t (some r) = .ok k →
      resolvedKey env e a s t (some r') = .ok k' →
      k ≠ k') ∧
    (∀ (env : Env) (cs₀ : CacheState) (e a s t : Option String) (r r' : String)
        (k k' : ClientKey) (c₁ c₂ : Client) (st₁ st₂ : CacheState),
      k ≠ k' →
      resolvedKey env e a s t (some r) = .ok k →
      resolvedKey env e a s t (some r') = .ok k' →
      lookupKey cs₀.entries k = none →
      lookupKey cs₀.entries k' = none →
      get_or_init_client env cs₀ e a s t (some r) = .ok (c₁, st₁) →
      get_or_init_client env st₁ e a s t (some r') = .ok (c₂, st₂) →
      lookupKey st₂.entries k = some c₁ ∧ lookupKey st₂.entries k' = some c₂ ∧
        c₁ ≠ c₂) := by
  refine ⟨?_, ?_, ?_, ?_⟩
  · intro env cs₀ e₁ a₁ s₁ t₁ r₁ e₂ a₂ s₂ t₂ r₂ k c₁ c₂ st₁ st₂ hk1 hk2 h1 h2
    have hl : lookupKey st₁.entries k = some c₁ := get_or_init_client_lookup hk1 h1
    have hhit := get_or_init_client_hit st₁ hk2 hl
    rw [hhit] at h2
    simp only [Except.ok.injEq, Prod.mk.injEq] at h2
    exact h2.1.symm
  · intro env e a s t t' r
    obtain ⟨oe, oa, os, ot⟩ := env
    cases oe <;> cases oa <;> cases os <;> rfl
  · intro env e a s t r r' k k' hne hk hk'
    obtain ⟨cfg, hr, hkey⟩ := resolvedKey_ok hk
    obtain ⟨cfg', hr', hkey'⟩ := resolvedKey_ok hk'
    intro hkk
    apply hne
    have hreg : (ClientKey.new cfg.ep cfg.ak cfg.sk cfg.rg).region =
        (ClientKey.new cfg'.ep cfg'.ak cfg'.sk cfg'.rg).region := by
      rw [hkey, hkey', hkk]
    simpa [ClientKey.new, resolveConfig_rg hr, resolveConfig_rg hr'] using hreg
  · intro env cs₀ e a s t r r' k k' c₁ c₂ st₁ st₂ hkk hk hk' hn hn' h1 h2
    have e1 := get_or_init_client_miss cs₀ hk hn
    rw [e1] at h1
    simp only [Except.ok.injEq, Prod.mk.injEq] at h1
    obtain ⟨hc₁, hst₁⟩ := h1
    subst hc₁; subst hst₁
    have hne' : ¬ k' = k := fun h => hkk h.symm
    have hn'' : lookupKey ((k, cs₀.builds) :: cs₀.entries) k' = none := by
      simp [lookupKey, hne', hn']
    have e2 := get_or_init_client_miss ⟨(k, cs₀.builds) :: cs₀.entries, cs₀.builds + 1⟩ hk' hn''
    rw [e2] at h2
    simp only [Except.ok.injEq, Prod.mk.injEq] at h2
    obtain ⟨hc₂, hst₂⟩ := h2
    subst hc₂; subst hst₂
    refine ⟨?_, ?_, ?_⟩
    · simp [lookupKey, hkk]
    · simp [lookupKey]
    · exact Nat.ne_of_lt (Nat.lt_succ_self _)

/-- Witness for C2: two all-default calls under `env₀` differing only in
session token resolve to the key `key₀` and both observe client `0`. -/
theorem client_cache_key_spec_w :
    resolvedKey env₀ none none none (some "t1") none = .ok key₀ ∧
    resolvedKey env₀ none none none (some "t2") none = .ok key₀ ∧
    get_or_init_client env₀ initCache none none none (some "t1") none = .ok (0, cache₁) ∧
    get_or_init_client env₀ cache₁ none none none (some "t2") none =
      .ok (0, ⟨cache₁.entries, 2⟩) ∧
    (0 : Client) = 0 :=
  ⟨rfl, rfl, rfl, rfl,
    client_cache_key_spec.1 env₀ initCache none none none (some "t1") none
      none none none (some "t2") none key₀ 0 0 cache₁ ⟨cache₁.entries, 2⟩
      rfl rfl rfl rfl⟩

/-- C1: concrete evaluation showing the claim fails on the code.  Two
all-default calls with the same resolved key: the second call does return
the already-cached client `0`, but because `or_insert` receives the built
client by value the builder runs again, so after two calls the build
counter is `2`, not `1`. -/
theorem get_or_init_client_builds_twice :
    get_or_init_client env₀ initCache none none none none none = .ok (0, cache₁) ∧
    cache₁.builds = 1 ∧
    get_or_init_client env₀ cache₁ none none none none none =
      .ok (0, ⟨cache₁.entries, 2⟩) ∧
    (⟨cache₁.entries, 2⟩ : CacheState).builds = 2 :=
  ⟨rfl, rfl, rfl, rfl⟩

/-- Environment with the endpoint variable missing but both key variables
present. -/
def envNoEndpoint : Env := ⟨none, some "AK", some "SK", none⟩

/-- Environment with the access-key variable missing. -/
def envNoAccessKey : Env := ⟨some "ep", none, some "SK", none⟩

/-- Environment with the secret-key variable missing. -/
def envNoSecretKey : Env := ⟨some "ep", some "AK", none, none⟩

/-- C3: a missing required field with no override aborts the call before
the network is consulted (the outcome is the same for every backend
response), but for a missing endpoint the fatal message is the literal
`"AWS_SECRET_ACCESS_KEY not set"`, which names the secret-key variable
rather than the missing endpoint field; the access-key and secret-key
branches do name their own variables. -/
theorem resolver_missing_field_message :
    (∀ (cs : CacheState) (bucket object_key : String) (resp : HeadResult),
      s3_object_exists_lazy envNoEndpoint cs bucket object_key none none none none none resp =
        .error "AWS_SECRET_ACCESS_KEY not set") ∧
    resolveConfig envNoEndpoint none none none none none =
      .error "AWS_SECRET_ACCESS_KEY not set" ∧
    resolveConfig envNoAccessKey none none none none none =
      .error "AWS_ACCESS_KEY_ID not set" ∧
    resolveConfig envNoSecretKey none none none none none =
      .error "AWS_SECRET_ACCESS_KEY not set" :=
  ⟨fun _ _ _ _ => rfl, rfl, rfl, rfl⟩

/-- The create-bucket error message is never classified as a dispatch
failure. -/
theorem createBucket_not_dispatch (e : String) :
    strStartsWith ("CreateBucket failed: " ++ e) "Dispatch failure: " = false :=
  strStartsWith_false_of_head_ne ("CreateBucket failed: " ++ e) "Dispatch failure: "
    'C' 'D' ("reateBucket failed: ".data ++ e.data) "ispatch failure: ".data
    (by rw [String.data_append]; rfl) rfl (by decide)

/-- The collect error message is never classified as a dispatch failure. -/
theorem collect_not_dispatch (e : String) :
    strStartsWith ("Collect error: " ++ e) "Dispatch failure: " = false :=
  strStartsWith_false_of_head_ne ("Collect error: " ++ e) "Dispatch failure: "
    'C' 'D' ("ollect error: ".data ++ e.data) "ispatch failure: ".data
    (by rw [String.data_append]; rfl) rfl (by decide)

/-- The generic put/get error message is never classified as a dispatch
failure. -/
theorem putFailed_not_dispatch (e : String) :
    strStartsWith ("PutObject failed: " ++ e) "Dispatch failure: " = false :=
  strStartsWith_false_of_head_ne ("PutObject failed: " ++ e) "Dispatch failure: "
    'P' 'D' ("utObject failed: ".data ++ e.data) "ispatch failure: ".data
    (by rw [String.data_append]; rfl) rfl (by decide)

/-- C5: for every existence-check call that reaches the backend, a
successful head response yields `true`; an error matching the not-found
signal (recognized code, or code/message carrying a not-found marker)
yields `false` as a normal outcome; an error with code `AccessDenied`
(and no not-found signal) is fatal with a message containing the bucket
and the key; every other error is a fatal backend-error failure. -/
theorem s3_object_exists_lazy_classification
    (env : Env) (cs : CacheState) (bucket object_key : String)
    (eu ak sk tok rg : Option String) (p : Client × CacheState)
    (hres : get_or_init_client env cs eu ak sk tok rg = .ok p) :
    s3_object_exists_lazy env cs bucket object_key eu ak sk tok rg .ok = .ok true ∧
    (∀ c msg, notFoundSignal (c.getD "") msg = true →
      s3_object_exists_lazy env cs bucket object_key eu ak sk tok rg (.err c msg) =
        .ok false) ∧
    (∀ c msg, notFoundSignal (c.getD "") msg = false →
      (c.getD "" == "AccessDenied") = true →
      s3_object_exists_lazy env cs bucket object_key eu ak sk tok rg (.err c msg) =
        .error ("AccessDenied for s3://" ++ bucket ++ "/" ++ object_key
          ++ " (check credentials/policy)") ∧
      strContains ("AccessDenied for s3://" ++ bucket ++ "/" ++ object_key
          ++ " (check credentials/policy)") bucket = true ∧
      strContains ("AccessDenied for s3://" ++ bucket ++ "/" ++ object_key
          ++ " (check credentials/policy)") object_key = true) ∧
    (∀ c msg, notFoundSignal (c.getD "") msg = false →
      (c.getD "" == "AccessDenied") = false →
      s3_object_exists_lazy env cs bucket object_key eu ak sk tok rg (.err c msg) =
        .error ("S3 HeadObject error: " ++ msg)) := by
  refine ⟨?_, ?_, ?_, ?_⟩
  · unfold s3_object_exists_lazy
    rw [hres]
  · intro c msg h1
    unfold s3_object_exists_lazy
    rw [hres]
    simp [h1]
  · intro c msg h1 h2
    refine ⟨?_, ?_, ?_⟩
    · unfold s3_object_exists_lazy
      rw [hres]
      simp [h1, h2]
    · apply strContains_of_split _ _ "AccessDenied for s3://".data
        ("/".data ++ (object_key.data ++ " (check credentials/policy)".data))
      simp [String.data_append, List.append_assoc]
    · apply strContains_of_split _ _
        ("AccessDenied for s3://".data ++ (bucket.data ++ "/".data))
        " (check credentials/policy)".data
      simp [String.data_append, List.append_assoc]
  · intro c msg h1 h2
    unfold s3_object_exists_lazy
    rw [hres]
    simp [h1, h2]

/-- Witness for C5 at concrete responses under the populated
environment. -/
theorem s3_object_exists_lazy_classification_w :
    s3_object_exists_lazy env₀ initCache "b" "k" none none none none none .ok = .ok true ∧
    s3_object_exists_lazy env₀ initCache "b" "k" none none none none none
      (.err (some "NoSuchKey") "no such key") = .ok false ∧
    s3_object_exists_lazy env₀ initCache "b" "k" none none none none none
      (.err (some "AccessDenied") "denied") =
      .error ("AccessDenied for s3://" ++ "b" ++ "/" ++ "k"
        ++ " (check credentials/policy)") ∧
    s3_object_exists_lazy env₀ initCache "b" "k" none none none none none
      (.err (some "Throttled") "slow down") =
      .error ("S3 HeadObject error: " ++ "slow down") :=
  ⟨(s3_object_exists_lazy_classification env₀ initCache "b" "k"
      none none none none none (0, cache₁) rfl).1,
   (s3_object_exists_lazy_classification env₀ initCache "b" "k"
      none none none none none (0, cache₁) rfl).2.1
      (some "NoSuchKey") "no such key" (by decide),
   ((s3_object_exists_lazy_classification env₀ initCache "b" "k"
      none none none none none (0, cache₁) rfl).2.2.1
      (some "AccessDenied") "denied" (by decide) (by decide)).1,
   (s3_object_exists_lazy_classification env₀ initCache "b" "k"
      none none none none none (0, cache₁) rfl).2.2.2
      (some "Throttled") "slow down" (by decide) (by decide)⟩

/-- C6: for every create-bucket call that reaches the backend, success
returns `true`; a transport-level dispatch failure is reported with the
dispatch-failure classification, which no other backend rejection
carries; any other rejection, including a bucket-already-exists
rejection, is a reported failure and never normalized to a success. -/
theorem s3_create_bucket_classification
    (env : Env) (cs : CacheState) (bucket : String)
    (eu ak sk tok rg : Option String) (p : Client × CacheState)
    (hres : get_or_init_client env cs eu ak sk tok rg = .ok p) :
    s3_create_bucket env cs bucket eu ak sk tok rg .ok = .ok true ∧
    (∀ e, s3_create_bucket env cs bucket eu ak sk tok rg (.dispatchFailure e) =
        .error ("Dispatch failure: " ++ e) ∧
      strStartsWith ("Dispatch failure: " ++ e) "Dispatch failure: " = true) ∧
    (∀ e, s3_create_bucket env cs bucket eu ak sk tok rg (.otherError e) =
        .error ("CreateBucket failed: " ++ e) ∧
      strStartsWith ("CreateBucket failed: " ++ e) "Dispatch failure: " = false) ∧
    (∀ e v, s3_create_bucket env cs bucket eu ak sk tok rg (.otherError e) ≠ .ok v) := by
  refine ⟨?_, ?_, ?_, ?_⟩
  · unfold s3_create_bucket
    rw [hres]
  · intro e
    refine ⟨?_, strStartsWith_append "Dispatch failure: " e⟩
    unfold s3_create_bucket
    rw [hres]
  · intro e
    refine ⟨?_, createBucket_not_dispatch e⟩
    unfold s3_create_bucket
    rw [hres]
  · intro e v h
    unfold s3_create_bucket at h
    rw [hres] at h
    simp at h

/-- Witness for C6 at concrete outcomes, with an already-exists rejection
as the generic backend error. -/
theorem s3_create_bucket_classification_w :
    s3_create_bucket env₀ initCache "tbk" none none none none none .ok = .ok true ∧
    s3_create_bucket env₀ initCache "tbk" none none none none none
      (.dispatchFailure "dns") = .error ("Dispatch failure: " ++ "dns") ∧
    s3_create_bucket env₀ initCache "tbk" none none none none none
      (.otherError "BucketAlreadyOwnedByYou") =
      .error ("CreateBucket failed: " ++ "BucketAlreadyOwnedByYou") :=
  ⟨(s3_create_bucket_classification env₀ initCache "tbk"
      none none none none none (0, cache₁) rfl).1,
   ((s3_create_bucket_classification env₀ initCache "tbk"
      none none none none none (0, cache₁) rfl).2.1 "dns").1,
   ((s3_create_bucket_classification env₀ initCache "tbk"
      none none none none none (0, cache₁) rfl).2.2.1 "BucketAlreadyOwnedByYou").1⟩

/-- C7: the content type is attached to the put request exactly when the
optional argument is given (bucket, key and body are always attached),
and a successful put returns the response ETag with surrounding double
quotes stripped. -/
theorem s3_put_object_spec
    (env : Env) (cs : CacheState) (bucket object_key : String) (data : List Nat)
    (eu ak sk tok rg : Option String) (p : Client × CacheState)
    (hres : get_or_init_client env cs eu ak sk tok rg = .ok p) :
    (∀ ct, (put_object_request bucket object_key data ct).content_type = ct) ∧
    (∀ ct : Option String,
      (put_object_request bucket object_key data ct).bucket = bucket ∧
      (put_object_request bucket object_key data ct).key = object_key ∧
      (put_object_request bucket object_key data ct).body = data) ∧
    (∀ (ct : Option String) (t : String),
      s3_put_object env cs bucket object_key data eu ak sk tok rg ct (.ok (some t)) =
        .ok (trim_matches quoteChar t)) := by
  refine ⟨?_, ?_, ?_⟩
  · intro ct
    cases ct <;> rfl
  · intro ct
    cases ct <;> exact ⟨rfl, rfl, rfl⟩
  · intro ct t
    unfold s3_put_object
    rw [hres]
    rfl

/-- Witness for C7: a quoted ETag comes back with its quotes stripped and
the given content type is attached. -/
theorem s3_put_object_spec_w :
    (put_object_request "b" "k" [104, 105] (some "text/plain")).content_type =
      some "text/plain" ∧
    s3_put_object env₀ initCache "b" "k" [104, 105] none none none none none
      (some "text/plain") (.ok (some "\"abc\"")) =
      .ok (trim_matches quoteChar "\"abc\"") ∧
    trim_matches quoteChar "\"abc\"" = "abc" :=
  ⟨(s3_put_object_spec env₀ initCache "b" "k" [104, 105]
      none none none none none (0, cache₁) rfl).1 (some "text/plain"),
   (s3_put_object_spec env₀ initCache "b" "k" [104, 105]
      none none none none none (0, cache₁) rfl).2.2 (some "text/plain") "\"abc\"",
   by decide⟩

/-- C9: a successful put whose response carries no ETag still succeeds
and returns the empty string, indistinguishable from a response carrying
an empty ETag. -/
theorem s3_put_object_missing_etag
    (env : Env) (cs : CacheState) (bucket object_key : String) (data : List Nat)
    (eu ak sk tok rg ct : Option String) (p : Client × CacheState)
    (hres : get_or_init_client env cs eu ak sk tok rg = .ok p) :
    s3_put_object env cs bucket object_key data eu ak sk tok rg ct (.ok none) = .ok "" ∧
    s3_put_object env cs bucket object_key data eu ak sk tok rg ct (.ok none) =
      s3_put_object env cs bucket object_key data eu ak sk tok rg ct (.ok (some "")) := by
  constructor
  · unfold s3_put_object
    rw [hres]
    rfl
  · unfold s3_put_object
    rw [hres]
    rfl

/-- Witness for C9 at a concrete call without a response ETag. -/
theorem s3_put_object_missing_etag_w :
    s3_put_object env₀ initCache "b" "k" [104] none none none none none none
      (.ok none) = .ok "" :=
  (s3_put_object_missing_etag env₀ initCache "b" "k" [104]
    none none none none none none (0, cache₁) rfl).1

/-- C8: for every get-object call that reaches the backend, success
returns the concatenation of all chunks of the body as one contiguous
byte sequence; a streaming failure after a successful response is a fatal
failure not classified as a dispatch failure; a dispatch failure on the
initial request carries the dispatch-failure classification and any other
initial failure does not. -/
theorem s3_get_object_classification
    (env : Env) (cs : CacheState) (bucket object_key : String)
    (eu ak sk tok rg : Option String) (p : Client × CacheState)
    (hres : get_or_init_client env cs eu ak sk tok rg = .ok p) :
    (∀ bs, s3_get_object env cs bucket object_key eu ak sk tok rg
        (.ok (.chunks bs)) = .ok bs.flatten) ∧
    (∀ e, s3_get_object env cs bucket object_key eu ak sk tok rg
        (.ok (.failure e)) = .error ("Collect error: " ++ e) ∧
      strStartsWith ("Collect error: " ++ e) "Dispatch failure: " = false) ∧
    (∀ e, s3_get_object env cs bucket object_key eu ak sk tok rg
        (.dispatchFailure e) = .error ("Dispatch failure: " ++ e) ∧
      strStartsWith ("Dispatch failure: " ++ e) "Dispatch failure: " = true) ∧
    (∀ e, s3_get_object env cs bucket object_key eu ak sk tok rg
        (.otherError e) = .error ("PutObject failed: " ++ e) ∧
      strStartsWith ("PutObject failed: " ++ e) "Dispatch failure: " = false) := by
  refine ⟨?_, ?_, ?_, ?_⟩
  · intro bs
    unfold s3_get_object
    rw [hres]
    rfl
  · intro e
    refine ⟨?_, collect_not_dispatch e⟩
    unfold s3_get_object
    rw [hres]
    rfl
  · intro e
    refine ⟨?_, strStartsWith_append "Dispatch failure: " e⟩
    unfold s3_get_object
    rw [hres]
  · intro e
    refine ⟨?_, putFailed_not_dispatch e⟩
    unfold s3_get_object
    rw [hres]

/-- Witness for C8: a two-chunk body is returned contiguously and a
dispatch failure is classified as such. -/
theorem s3_get_object_classification_w :
    s3_get_object env₀ initCache "b" "k" none none none none none
      (.ok (.chunks [[72], [105]])) = .ok [72, 105] ∧
    s3_get_object env₀ initCache "b" "k" none none none none none
      (.ok (.failure "reset")) = .error ("Collect error: " ++ "reset") ∧
    s3_get_object env₀ initCache "b" "k" none none none none none
      (.dispatchFailure "conn refused") = .error ("Dispatch failure: " ++ "conn refused") :=
  ⟨(s3_get_object_classification env₀ initCache "b" "k"
      none none none none none (0, cache₁) rfl).1 [[72], [105]],
   ((s3_get_object_classification env₀ initCache "b" "k"
      none none none none none (0, cache₁) rfl).2.1 "reset").1,
   ((s3_get_object_classification env₀ initCache "b" "k"
      none none none none none (0, cache₁) rfl).2.2.1 "conn refused").1⟩
